import Mathlib

/-!
Verification development for the slide-deck-to-markdown converter
(`src/pptx_extractor.py`).  The core rendering pipeline is embedded
shallowly: Python strings become Lean `String`s, `str.strip()` becomes
`py_strip`, `'\n'.join` becomes `String.intercalate "\n"`, and the
external parser's object graph (document → slides → shapes → paragraphs,
tables, notes) becomes explicit inductive data.  Each definition mirrors
the source function of the same name.
-/

/-! Models of the Python string primitives the source uses

These are the string operations the source calls, written as structural
recursion over the character list so that every definition evaluates
inside proofs. -/

/-- Model of Python `str.strip()`: remove leading and trailing
whitespace. -/
def py_strip (s : String) : String :=
  String.mk (((s.data.dropWhile Char.isWhitespace).reverse.dropWhile Char.isWhitespace).reverse)

/-- Model of Python `str.replace('|', '\\|')`: the pattern is a single
character, so the replacement maps each character independently. -/
def replace_pipes (s : String) : String :=
  String.mk (s.data.flatMap (fun a => if a = '|' then ['\\', '|'] else [a]))

/-- Splitting a character list at every newline; the empty input yields
one empty piece, as Python `str.split('\n')` does. -/
def split_newlines_aux : List Char → List (List Char)
  | [] => [[]]
  | a :: as =>
      let rest := split_newlines_aux as
      if a = '\n' then [] :: rest
      else
        match rest with
        | [] => [[a]]
        | r :: rs => (a :: r) :: rs

/-- Model of Python `str.split('\n')`. -/
def py_split_lines (s : String) : List String :=
  (split_newlines_aux s.data).map String.mk

/-! Table rendering (`extract_table_as_markdown`, lines 14-32) -/

/-- One cell of the source grid, as the Python code reads it:
`cell.text.strip().replace('|', '\\|')` (line 18). -/
def escape_cell (cell : String) : String :=
  replace_pipes (py_strip cell)

/-- Row formatting `'| ' + ' | '.join(row) + ' |'` (lines 28-30). -/
def format_row (cells : List String) : String :=
  "| " ++ String.intercalate (" | ") cells ++ " |"

/-- Right-padding of a row with empty-string cells up to `col_count`
(line 26: `row + [''] * (col_count - len(row))`). -/
def pad_row (col_count : Nat) (row : List String) : List String :=
  row ++ List.replicate (col_count - row.length) ""

/-- Python `max(len(row) for row in rows)` (line 24), with `0` for the empty
list; the source only evaluates it on non-empty `rows`, where the fold
agrees with Python's `max`. -/
def table_col_count (rows : List (List String)) : Nat :=
  rows.foldl (fun acc row => max acc row.length) 0

/-- Rendering of the already-escaped row grid: header, separator of
`---` cells, body rows, joined with newlines (lines 21-32). -/
def render_rows : List (List String) → String
  | [] => ""
  | row0 :: rest =>
      let col_count := table_col_count (row0 :: rest)
      let header := format_row (pad_row col_count row0)
      let separator := format_row (List.replicate col_count ("---"))
      let body_rows := rest.map (fun row => format_row (pad_row col_count row))
      String.intercalate ("\n") (header :: separator :: body_rows)

/-- Source `extract_table_as_markdown` (lines 14-32): strip and escape every
cell, then render the grid. -/
def extract_table_as_markdown (table : List (List String)) : String :=
  render_rows (table.map (fun row => row.map escape_cell))

/-! Shapes and text extraction (`extract_text_from_shape`, lines 35-64) -/

/-- A paragraph of a text frame: its text and its nesting level. -/
structure Para where
  text : String
  level : Nat
deriving DecidableEq

/-- A shape of a slide, as a tagged variant: a text frame
(`shape.has_text_frame`), a table (`shape.has_table`), a group
(`shape.shape_type == 6`) with child shapes, or any other kind.  Every
shape carries its stable `shape_id`. -/
inductive Shape where
  | text (id : Nat) (paras : List Para)
  | table (id : Nat) (rows : List (List String))
  | group (id : Nat) (children : List Shape)
  | other (id : Nat)

/-- The stable identifier `shape.shape_id`. -/
def Shape.id : Shape → Nat
  | Shape.text i _ => i
  | Shape.table i _ => i
  | Shape.group i _ => i
  | Shape.other i => i

/-- The `shape.text` attribute of a text-frame shape: its paragraphs'
texts joined with newlines (the external parser's behaviour); the
source only reads it on the title shape, which is a text placeholder. -/
def Shape.text_attr : Shape → String
  | Shape.text _ paras => String.intercalate ("\n") (paras.map Para.text)
  | _ => ""

/-- The per-paragraph formatting of lines 49-56: strip the text, drop
it when empty, indent with `'  ' * (level - 1)` and a `- ` bullet when
`level > 0`, emit it unchanged otherwise. -/
def para_line (p : Para) : Option String :=
  let text := py_strip p.text
  if text = "" then none
  else if p.level > 0 then
    some (String.join (List.replicate (p.level - 1) "  ") ++ "- " ++ text)
  else
    some text

mutual

/-- Source `extract_text_from_shape` (lines 35-64): tables render via the
table renderer (only when non-empty), text frames yield one line per
non-blank paragraph, groups recurse over their children in order, and
every other variant yields nothing. -/
def extract_text_from_shape : Shape → List String
  | Shape.table _ rows =>
      let table_md := extract_table_as_markdown rows
      if table_md = "" then [] else [table_md]
  | Shape.text _ paras => paras.filterMap para_line
  | Shape.group _ children => extract_shapes children
  | Shape.other _ => []
termination_by structural s => s

/-- The `for sub_shape in shape.shapes` loop of lines 61-62, collecting
extracted fragments of a list of shapes in order. -/
def extract_shapes : List Shape → List String
  | [] => []
  | s :: ss => extract_text_from_shape s ++ extract_shapes ss
termination_by structural l => l

end

/-! Slides, notes, and the per-document pipeline (lines 67-108) -/

/-- What reading a slide's notes can look like: notes absent, notes
present with raw text, or a fault raised while the notes are read (the
`except Exception` arm of lines 74-75). -/
inductive NotesSource where
  | absent
  | present (text : String)
  | fault
deriving DecidableEq

/-- A slide: its optional designated title shape (`slide.shapes.title`),
its shapes in document order, and its notes source. -/
structure Slide where
  title : Option Shape
  shapes : List Shape
  notes : NotesSource

/-- Source `extract_notes` (lines 67-76): a fault is suppressed to `None`;
otherwise the stripped notes text is returned when non-empty. -/
def extract_notes (slide : Slide) : Option String :=
  match slide.notes with
  | NotesSource.fault => none
  | NotesSource.absent => none
  | NotesSource.present raw =>
      let notes_text := py_strip raw
      if notes_text = "" then none else some notes_text

/-- The notes fragment appended by lines 103-106: each line of the
notes prefixed with `> `, joined with newlines, preceded by a newline
and the `**Notes:**` label line. -/
def notes_fragment (slide : Slide) : List String :=
  match extract_notes slide with
  | none => []
  | some notes =>
      let quoted := String.intercalate ("\n") ((py_split_lines notes).map (fun line => "> " ++ line))
      ["\n**Notes:**\n" ++ quoted]

/-- The slide heading of lines 90-94: the stripped title text when a
title shape with non-blank text exists, `## Slide {n}` otherwise; both
carry the trailing newline the f-strings contain. -/
def slide_heading (slide_number : Nat) (slide : Slide) : String :=
  match slide.title with
  | some title_shape =>
      let t := py_strip title_shape.text_attr
      if t = "" then "## Slide " ++ toString slide_number ++ "\n"
      else "## " ++ t ++ "\n"
  | none => "## Slide " ++ toString slide_number ++ "\n"

/-- The body loop of lines 96-100: every shape's fragments in order,
skipping any shape whose `shape_id` equals the title shape's. -/
def slide_body (slide : Slide) : List String :=
  slide.shapes.flatMap (fun shape =>
    match slide.title with
    | some title_shape =>
        if shape.id = title_shape.id then [] else extract_text_from_shape shape
    | none => extract_text_from_shape shape)

/-- All fragments one slide contributes to `text_runs`: heading, body
fragments, then the optional notes fragment (lines 88-106). -/
def slide_runs (slide_number : Nat) (slide : Slide) : List String :=
  slide_heading slide_number slide :: (slide_body slide ++ notes_fragment slide)

/-- The `enumerate(prs.slides, start=1)` loop: fragments of all slides
with their 1-based ordinals. -/
def slides_runs : Nat → List Slide → List String
  | _, [] => []
  | n, slide :: rest => slide_runs n slide ++ slides_runs (n + 1) rest

/-- Source `extract_text_from_pptx` (lines 79-108): the `# {stem}` title
fragment (with its trailing newline from the f-string on line 86),
then every slide's fragments, joined with `"\n\n"`. -/
def extract_text_from_pptx (name : String) (slides : List Slide) : String :=
  String.intercalate ("\n\n") (("# " ++ name ++ "\n") :: slides_runs 1 slides)

/-! The specification's reading of the assembled document

The specification describes the fragments without the newlines the
f-strings embed: title fragment `# {name}`, headings `## …` with no
trailing newline, and a notes fragment that starts directly with the
`**Notes:**` label.  These definitions follow the specification's words
and exist only to be compared with the code's pipeline above. -/

/-- Modelled from the spec (§4.5 heading rule): `## {title text}` or
`## Slide {ordinal}`, no trailing newline. -/
def spec_slide_heading (slide_number : Nat) (slide : Slide) : String :=
  match slide.title with
  | some title_shape =>
      let t := py_strip title_shape.text_attr
      if t = "" then "## Slide " ++ toString slide_number
      else "## " ++ t
  | none => "## Slide " ++ toString slide_number

/-- Modelled from the spec (§4.4): the label line `**Notes:**` followed
by the quoted block, with no leading newline. -/
def spec_notes_fragment (slide : Slide) : List String :=
  match extract_notes slide with
  | none => []
  | some notes =>
      let quoted := String.intercalate ("\n") ((py_split_lines notes).map (fun line => "> " ++ line))
      ["**Notes:**\n" ++ quoted]

/-- Modelled from the spec (§4.5): heading, body fragments, notes. -/
def spec_slide_runs (slide_number : Nat) (slide : Slide) : List String :=
  spec_slide_heading slide_number slide :: (slide_body slide ++ spec_notes_fragment slide)

/-- Modelled from the spec (§4.6): fragments of all slides from
ordinal 1. -/
def spec_slides_runs : Nat → List Slide → List String
  | _, [] => []
  | n, slide :: rest => spec_slide_runs n slide ++ spec_slides_runs (n + 1) rest

/-- Modelled from the spec (§4.6): title fragment `# {name}` first, then
all slide fragments, joined with one blank line. -/
def spec_extract_text_from_pptx (name : String) (slides : List Slide) : String :=
  String.intercalate ("\n\n") (("# " ++ name) :: spec_slides_runs 1 slides)

/-! Batch processing (`process_pptx_files`, lines 248-295)

One input file is its display name (the filename stem) together with
the outcome of handing it to the external parser: a slide list, or the
error message of the exception the parser raised. -/

/-- A discovered input file: its stem and its parse outcome. -/
structure PptxFile where
  name : String
  parse : Except String (List Slide)

/-- What the per-file loop body reports: the written markdown on
success, or the `ERROR: {name}: {message}` line on failure. -/
inductive Report where
  | ok (name : String) (output : String)
  | error (name : String) (message : String)
deriving DecidableEq

/-- The body of the `for pptx_file in pptx_files` loop (lines 268-293):
the whole attempt on one file is wrapped in `try/except`, so a failure
becomes an error report naming the file and the exception text. -/
def process_one (f : PptxFile) : Report :=
  match f.parse with
  | Except.error e => Report.error f.name e
  | Except.ok slides => Report.ok f.name (extract_text_from_pptx f.name slides)

/-- Source `process_pptx_files`: every discovered file is processed in turn,
each inside its own `try/except`. -/
def process_pptx_files (files : List PptxFile) : List Report :=
  files.map process_one

/-! Concrete data used by counterexamples and witnesses -/

/-- The worked example of the spec: one slide, no title shape, one text
shape, notes `"Remember X"`. -/
def deckSlide : Slide :=
  { title := none,
    shapes := [Shape.text 1 [⟨"Intro", 0⟩, ⟨"Point A", 1⟩, ⟨"Sub-point", 2⟩]],
    notes := NotesSource.present ("Remember X") }

/-! Helper lemmas -/

theorem extract_shapes_eq_flatMap (l : List Shape) :
    extract_shapes l = l.flatMap extract_text_from_shape := by
  induction l with
  | nil => rfl
  | cons s ss ih => simp [extract_shapes, ih]

theorem intercalate_go_exists (sep : String) (l : List String) :
    ∀ acc : String, ∃ r : String, String.intercalate.go acc sep l = acc ++ r := by
  induction l with
  | nil =>
      intro acc
      exact ⟨"", by simp [String.intercalate.go]⟩
  | cons a as ih =>
      intro acc
      obtain ⟨r, hr⟩ := ih (acc ++ sep ++ a)
      refine ⟨sep ++ a ++ r, ?_⟩
      have hgo : String.intercalate.go acc sep (a :: as)
          = String.intercalate.go (acc ++ sep ++ a) sep as := rfl
      rw [hgo, hr]
      simp [String.append_assoc]

theorem intercalate_cons_exists (sep a : String) (l : List String) :
    ∃ r : String, String.intercalate sep (a :: l) = a ++ r := by
  simpa [String.intercalate] using intercalate_go_exists sep l a

theorem format_row_length_ge (cells : List String) : 4 ≤ (format_row cells).length := by
  have h1 : ("| " : String).length = 2 := rfl
  have h2 : (" |" : String).length = 2 := rfl
  simp [format_row, String.length_append, h1, h2]

theorem intercalate_format_row_ne_empty (x : List String) (l : List String) :
    String.intercalate ("\n") (format_row x :: l) ≠ "" := by
  obtain ⟨r, hr⟩ := intercalate_cons_exists ("\n") (format_row x) l
  intro hcontra
  have hlen : (String.intercalate ("\n") (format_row x :: l)).length = 0 := by
    rw [hcontra]; rfl
  rw [hr, String.length_append] at hlen
  have := format_row_length_ge x
  omega

theorem slides_runs_append (n : Nat) (s1 s2 : List Slide) :
    slides_runs n (s1 ++ s2) = slides_runs n s1 ++ slides_runs (n + s1.length) s2 := by
  induction s1 generalizing n with
  | nil => simp [slides_runs]
  | cons s ss ih =>
      have harith : n + 1 + ss.length = n + (ss.length + 1) := by omega
      simp [slides_runs, ih, List.append_assoc, harith]

theorem foldl_max_init_le (l : List (List String)) :
    ∀ init : Nat, init ≤ l.foldl (fun acc row => max acc row.length) init := by
  induction l with
  | nil => intro init; simp
  | cons r rs ih =>
      intro init
      exact le_trans (Nat.le_max_left _ r.length) (ih (max init r.length))

theorem length_le_foldl_max {r : List String} {l : List (List String)} (h : r ∈ l) :
    ∀ init : Nat, r.length ≤ l.foldl (fun acc row => max acc row.length) init := by
  induction l with
  | nil => cases h
  | cons a as ih =>
      intro init
      rcases List.mem_cons.mp h with rfl | h2
      · exact le_trans (Nat.le_max_right init r.length) (foldl_max_init_le as _)
      · exact ih h2 _

theorem le_table_col_count {r : List String} {l : List (List String)} (h : r ∈ l) :
    r.length ≤ table_col_count l :=
  length_le_foldl_max h 0

theorem foldl_max_attained (l : List (List String)) :
    ∀ init : Nat,
      l.foldl (fun acc row => max acc row.length) init = init ∨
      ∃ r ∈ l, l.foldl (fun acc row => max acc row.length) init = r.length := by
  induction l with
  | nil => intro init; left; rfl
  | cons a as ih =>
      intro init
      rcases ih (max init a.length) with h | ⟨r, hr, h⟩
      · rcases Nat.le_total init a.length with hle | hle
        · right
          refine ⟨a, List.mem_cons_self a as, ?_⟩
          simp only [List.foldl_cons]
          exact h.trans (Nat.max_eq_right hle)
        · left
          simp only [List.foldl_cons]
          exact h.trans (Nat.max_eq_left hle)
      · right
        refine ⟨r, List.mem_cons_of_mem a hr, ?_⟩
        simp only [List.foldl_cons]
        exact h

theorem table_col_count_attained {l : List (List String)} (h : l ≠ []) :
    ∃ r ∈ l, r.length = table_col_count l := by
  rcases foldl_max_attained l 0 with h0 | ⟨r, hr, heq⟩
  · obtain ⟨r0, rest, rfl⟩ := List.exists_cons_of_ne_nil h
    refine ⟨r0, List.mem_cons_self r0 rest, ?_⟩
    have hle := le_table_col_count (List.mem_cons_self r0 rest)
    have h0' : table_col_count (r0 :: rest) = 0 := h0
    omega
  · exact ⟨r, hr, heq.symm⟩

theorem table_col_count_map_escape (l : List (List String)) :
    table_col_count (l.map (fun row => row.map escape_cell)) = table_col_count l := by
  unfold table_col_count
  rw [List.foldl_map]
  simp

theorem pad_row_length {c : Nat} {r : List String} (h : r.length ≤ c) :
    (pad_row c r).length = c := by
  simp [pad_row]
  omega

theorem foldl_append_acc (l : List String) :
    ∀ acc : String, l.foldl (fun r s => r ++ s) acc = acc ++ l.foldl (fun r s => r ++ s) "" := by
  induction l with
  | nil => intro acc; simp
  | cons a as ih =>
      intro acc
      rw [List.foldl_cons, List.foldl_cons, ih (acc ++ a), ih ("" ++ a)]
      simp [String.append_assoc]

theorem join_cons (a : String) (l : List String) :
    String.join (a :: l) = a ++ String.join l := by
  show (a :: l).foldl (fun r s => r ++ s) "" = a ++ l.foldl (fun r s => r ++ s) ""
  rw [List.foldl_cons, foldl_append_acc l ("" ++ a)]
  simp

theorem join_replicate_two_spaces (k : Nat) :
    String.join (List.replicate k "  ") = String.mk (List.replicate (2 * k) ' ') := by
  induction k with
  | zero => rfl
  | succ n ih =>
      rw [List.replicate_succ, join_cons, ih]
      apply String.ext
      have : 2 * (n + 1) = 2 + 2 * n := by omega
      simp [String.data_append, this, List.replicate_add]

theorem flatMap_skip_eq_filter (tid : Nat) (shapes : List Shape) :
    (shapes.flatMap (fun shape =>
        if shape.id = tid then [] else extract_text_from_shape shape))
      = (shapes.filter (fun s => s.id != tid)).flatMap extract_text_from_shape := by
  induction shapes with
  | nil => rfl
  | cons s ss ih =>
      by_cases hs : s.id = tid
      · simp [List.flatMap_cons, List.filter_cons, hs, ih]
      · simp [List.flatMap_cons, List.filter_cons, hs, ih]

theorem table_col_count_replicate_nil (m : Nat) :
    table_col_count (List.replicate m ([] : List String)) = 0 := by
  induction m with
  | zero => rfl
  | succ n ih =>
      simp only [table_col_count, List.replicate_succ, List.foldl_cons, List.length_nil,
        Nat.max_self] at *
      exact ih

theorem extract_replicate_nil (k : Nat) :
    extract_table_as_markdown (List.replicate (k + 1) ([] : List String))
      = String.intercalate ("\n") (List.replicate (k + 2) ("|  |")) := by
  have hrep : List.replicate (k + 1) ([] : List String) = [] :: List.replicate k [] :=
    List.replicate_succ [] k
  have hcc : table_col_count ([] :: List.replicate k ([] : List String)) = 0 := by
    have h := table_col_count_replicate_nil (k + 1)
    rwa [hrep] at h
  rw [extract_table_as_markdown]
  rw [show (List.replicate (k + 1) ([] : List String)).map (fun row => row.map escape_cell)
      = [] :: List.replicate k [] by simp [List.map_replicate, hrep]]
  simp only [render_rows, hcc]
  simp only [List.map_replicate]
  rw [show format_row (pad_row 0 []) = "|  |" from rfl]
  rw [show format_row (List.replicate 0 ("---")) = "|  |" from rfl]
  rw [show List.replicate (k + 2) ("|  |") = "|  |" :: "|  |" :: List.replicate k ("|  |") from rfl]

/-! Claim theorems -/

/-- Claim C1 (counterexample): on the spec's worked example — document
"Deck", one slide with no title shape, one text shape with paragraphs
(Intro, 0), (Point A, 1), (Sub-point, 2) and notes "Remember X" — the
pipeline does NOT return the string the claim gives, because the title
and heading fragments carry a trailing newline and the notes fragment a
leading one. -/
theorem claim_C1_counterexample :
    extract_text_from_pptx ("Deck") [deckSlide]
      ≠ "# Deck\n\n## Slide 1\n\nIntro\n\n- Point A\n\n  - Sub-point\n\n**Notes:**\n> Remember X" := by
  decide

/-- Claim C1 (amended): on the worked example the pipeline returns the
same fragments but with two empty lines after the title and the slide
heading and two empty lines before the notes block, because the heading
fragments end with a newline and the notes fragment starts with one. -/
theorem claim_C1 :
    extract_text_from_pptx ("Deck") [deckSlide]
      = "# Deck\n\n\n## Slide 1\n\n\nIntro\n\n- Point A\n\n  - Sub-point\n\n\n**Notes:**\n> Remember X" := by
  decide

/-- Claim C2 (counterexample): on a document "D" with one slide that has
no shapes and no notes, the assembled output is not what the claim's
reading of the fragments (no trailing or leading newlines, one empty
line between adjacent fragments) predicts: the heading fragment's
trailing newline yields two empty lines after the title fragment. -/
theorem claim_C2_counterexample :
    extract_text_from_pptx ("D") [⟨none, [], NotesSource.absent⟩]
      ≠ spec_extract_text_from_pptx ("D") [⟨none, [], NotesSource.absent⟩] := by
  decide

/-- Claim C2 (amended): the assembled output is the title fragment
`# {name}\n` (trailing newline included) followed by each slide's
fragments in slide order with ordinals starting at 1, the whole ordered
fragment list joined with the separator `"\n\n"`; the separator inserts
exactly one empty line between fragment strings, but fragments that end
or begin with their own newline (headings, notes) show two empty lines
at those boundaries in the final string. -/
theorem claim_C2 (name : String) (slides : List Slide) :
    extract_text_from_pptx name slides
        = String.intercalate ("\n\n") (("# " ++ name ++ "\n") :: slides_runs 1 slides) ∧
    (∃ r : String, extract_text_from_pptx name slides = ("# " ++ name ++ "\n") ++ r) ∧
    (∀ (n : Nat) (s1 s2 : List Slide),
      slides_runs n (s1 ++ s2) = slides_runs n s1 ++ slides_runs (n + s1.length) s2) := by
  refine ⟨rfl, ?_, ?_⟩
  · exact intercalate_cons_exists ("\n\n") ("# " ++ name ++ "\n") (slides_runs 1 slides)
  · exact fun n s1 s2 => slides_runs_append n s1 s2

/-- Claim C3: for a non-empty grid the rendered markdown table is the
header row, a separator row of `---` cells, and one body row per
remaining input row; every padded row and the separator have exactly
`col_count` cells, `col_count` being the maximum row length of the
input (an attained maximum); cells are stripped and pipe-escaped by
`escape_cell`; rows are formatted `| c1 | c2 | ... |` and joined with
newlines.  A grid with zero rows renders as the empty string. -/
theorem claim_C3 (table : List (List String)) :
    (table = [] → extract_table_as_markdown table = "") ∧
    (∀ row0 rest, table = row0 :: rest →
      (∀ row ∈ table, row.length ≤ table_col_count table) ∧
      (∃ row ∈ table, row.length = table_col_count table) ∧
      (∀ row ∈ table,
        (pad_row (table_col_count table) (row.map escape_cell)).length
          = table_col_count table) ∧
      (List.replicate (table_col_count table) ("---")).length = table_col_count table ∧
      extract_table_as_markdown table =
        String.intercalate ("\n")
          (format_row (pad_row (table_col_count table) (row0.map escape_cell)) ::
            format_row (List.replicate (table_col_count table) ("---")) ::
            rest.map (fun row =>
              format_row (pad_row (table_col_count table) (row.map escape_cell))))) := by
  constructor
  · rintro rfl; rfl
  · rintro row0 rest rfl
    refine ⟨?_, ?_, ?_, ?_, ?_⟩
    · intro row hrow
      exact le_table_col_count hrow
    · exact table_col_count_attained (by simp)
    · intro row hrow
      apply pad_row_length
      simpa using le_table_col_count hrow
    · simp
    · rw [extract_table_as_markdown]
      simp only [List.map_cons]
      simp only [render_rows]
      have hcc : table_col_count
            ((row0.map escape_cell) :: rest.map (fun row => row.map escape_cell))
          = table_col_count (row0 :: rest) := by
        have h := table_col_count_map_escape (row0 :: rest)
        simpa [List.map_cons] using h
      rw [hcc]
      simp [List.map_map, Function.comp_def]

/-- Claim C3 (witness): the spec's jagged example grid. -/
theorem claim_C3_witness :
    extract_table_as_markdown [["A", "B"], ["1"]]
      = "| A | B |\n| --- | --- |\n| 1 |  |" := by
  have h := (claim_C3 [["A", "B"], ["1"]]).2 ["A", "B"] [["1"]] rfl
  rw [h.2.2.2.2]
  decide

/-- Claim C4: when a slide has a designated title shape, the body is
exactly the concatenated fragments of the shapes whose stable
identifier differs from the title's — the title shape itself is always
excluded, and every other shape's fragments (even text-identical ones)
are included, identity being compared by identifier only. -/
theorem claim_C4 (slide : Slide) (title_shape : Shape)
    (h : slide.title = some title_shape) :
    slide_body slide
        = (slide.shapes.filter (fun s => s.id != title_shape.id)).flatMap
            extract_text_from_shape ∧
    ∀ s ∈ slide.shapes, s.id ≠ title_shape.id →
      ∀ frag ∈ extract_text_from_shape s, frag ∈ slide_body slide := by
  have hbody : slide_body slide
      = (slide.shapes.filter (fun s => s.id != title_shape.id)).flatMap
          extract_text_from_shape := by
    rw [slide_body, h]
    exact flatMap_skip_eq_filter title_shape.id slide.shapes
  refine ⟨hbody, ?_⟩
  intro s hs hid frag hfrag
  rw [hbody]
  exact List.mem_flatMap.mpr ⟨s, List.mem_filter.mpr ⟨hs, by simpa using hid⟩, hfrag⟩

/-- Claim C4 (witness): a slide whose second shape repeats the title
shape's text byte-for-byte but has a different identifier: the body
keeps the duplicate text and drops only the title shape. -/
theorem claim_C4_witness :
    slide_body ⟨some (Shape.text 1 [⟨"Dup", 0⟩]),
        [Shape.text 1 [⟨"Dup", 0⟩], Shape.text 2 [⟨"Dup", 0⟩]], NotesSource.absent⟩
      = ["Dup"] := by
  have h := (claim_C4 ⟨some (Shape.text 1 [⟨"Dup", 0⟩]),
      [Shape.text 1 [⟨"Dup", 0⟩], Shape.text 2 [⟨"Dup", 0⟩]], NotesSource.absent⟩
      (Shape.text 1 [⟨"Dup", 0⟩]) rfl).1
  rw [h]
  decide

/-- Claim C5: a paragraph blank after stripping yields no line; a
non-blank paragraph at level 0 yields its stripped text unchanged; at
level k+1 it yields exactly 2*k leading spaces, then `- `, then the
stripped text. -/
theorem claim_C5 (p : Para) :
    (py_strip p.text = "" → para_line p = none) ∧
    (py_strip p.text ≠ "" → p.level = 0 → para_line p = some (py_strip p.text)) ∧
    (∀ k : Nat, py_strip p.text ≠ "" → p.level = k + 1 →
      para_line p
        = some (String.mk (List.replicate (2 * k) ' ') ++ "- " ++ py_strip p.text)) := by
  refine ⟨?_, ?_, ?_⟩
  · intro hblank
    simp [para_line, hblank]
  · intro hnonblank hlevel
    simp [para_line, hnonblank, hlevel]
  · intro k hnonblank hlevel
    simp only [para_line, hnonblank, if_neg hnonblank, hlevel]
    rw [show k + 1 - 1 = k from rfl, join_replicate_two_spaces k]
    simp

/-- Claim C5 (witness): the paragraph (" X ", level 3) renders as four
spaces, a bullet, and the stripped text. -/
theorem claim_C5_witness :
    para_line ⟨" X ", 3⟩ = some "    - X" := by
  have h := (claim_C5 ⟨" X ", 3⟩).2.2 2 (by decide) rfl
  rw [h]
  decide

/-- Claim C6: extraction on a group shape is the concatenation of its
children's fragment sequences in child order (recursively, so document
order of all descendant text is preserved), and every shape variant
that is neither a table, a text frame, nor a group yields the empty
fragment sequence — the function is total with no error case. -/
theorem claim_C6 :
    (∀ (i : Nat) (children : List Shape),
        extract_text_from_shape (Shape.group i children)
          = children.flatMap extract_text_from_shape) ∧
    (∀ i : Nat, extract_text_from_shape (Shape.other i) = []) :=
  ⟨fun _ children => extract_shapes_eq_flatMap children, fun _ => rfl⟩

/-- Claim C7 (counterexample): the notes fragment the code appends is
not the label line followed by the quoted block — it starts with an
extra leading newline. -/
theorem claim_C7_counterexample :
    notes_fragment ⟨none, [], NotesSource.present ("Remember X")⟩
      ≠ ["**Notes:**\n> Remember X"] := by
  decide

/-- Claim C7 (amended): absent notes, or notes blank after stripping,
or a notes-reading fault contribute no fragment; otherwise the fragment
is a LEADING NEWLINE, then the label line `**Notes:**`, then the
stripped notes text split on newlines with every line prefixed `> `,
joined with newlines. -/
theorem claim_C7 (slide : Slide) :
    (extract_notes slide = none → notes_fragment slide = []) ∧
    (slide.notes = NotesSource.absent → notes_fragment slide = []) ∧
    (∀ raw, slide.notes = NotesSource.present raw → py_strip raw = "" →
      notes_fragment slide = []) ∧
    (∀ raw, slide.notes = NotesSource.present raw → py_strip raw ≠ "" →
      notes_fragment slide
        = ["\n**Notes:**\n" ++ String.intercalate ("\n")
            ((py_split_lines (py_strip raw)).map (fun line => "> " ++ line))]) := by
  refine ⟨?_, ?_, ?_, ?_⟩
  · intro hnone
    simp [notes_fragment, hnone]
  · intro habsent
    simp [notes_fragment, extract_notes, habsent]
  · intro raw hraw hblank
    simp [notes_fragment, extract_notes, hraw, hblank]
  · intro raw hraw hnonblank
    simp [notes_fragment, extract_notes, hraw, hnonblank]

/-- Claim C7 (witness): two-line notes render with the leading newline,
the label, and each line quoted. -/
theorem claim_C7_witness :
    notes_fragment ⟨none, [], NotesSource.present ("Remember X\nNext")⟩
      = ["\n**Notes:**\n> Remember X\n> Next"] := by
  have h := (claim_C7 ⟨none, [], NotesSource.present ("Remember X\nNext")⟩).2.2.2
      ("Remember X\nNext") rfl (by decide)
  rw [h]
  decide

/-- Claim C8: a fault while reading a slide's notes is suppressed —
extraction returns `none` and the slide renders exactly as it would
with notes absent; no error propagates out of notes extraction. -/
theorem claim_C8 (title : Option Shape) (shapes : List Shape) (n : Nat) :
    extract_notes ⟨title, shapes, NotesSource.fault⟩ = none ∧
    slide_runs n ⟨title, shapes, NotesSource.fault⟩
      = slide_runs n ⟨title, shapes, NotesSource.absent⟩ :=
  ⟨rfl, rfl⟩

/-- Claim C9: a document whose parse fails yields an error report
carrying its name and the error text, and every other document in the
batch — before and after it — is still processed exactly as it would be
alone; the report list keeps one entry per input. -/
theorem claim_C9 (pre post : List PptxFile) (f : PptxFile) (e : String)
    (h : f.parse = Except.error e) :
    process_pptx_files (pre ++ f :: post)
        = process_pptx_files pre ++ Report.error f.name e :: process_pptx_files post ∧
    (process_pptx_files (pre ++ f :: post)).length = (pre ++ f :: post).length := by
  constructor
  · simp [process_pptx_files, process_one, h]
  · simp [process_pptx_files]

/-- Claim C9 (witness): a failing document between two good ones is
reported by name and message while both neighbours are processed. -/
theorem claim_C9_witness :
    process_pptx_files
        [⟨"a", Except.ok []⟩, ⟨"b", Except.error ("boom")⟩, ⟨"c", Except.ok []⟩]
      = [Report.ok ("a") ("# a\n"), Report.error ("b") ("boom"), Report.ok ("c") ("# c\n")] := by
  have h := (claim_C9 [⟨"a", Except.ok []⟩] [⟨"c", Except.ok []⟩]
      ⟨"b", Except.error ("boom")⟩ ("boom") rfl).1
  rw [show ([⟨"a", Except.ok []⟩, ⟨"b", Except.error ("boom")⟩, ⟨"c", Except.ok []⟩]
        : List PptxFile)
      = [⟨"a", Except.ok []⟩] ++ ⟨"b", Except.error ("boom")⟩ :: [⟨"c", Except.ok []⟩]
      from rfl, h]
  decide

/-- Claim C10: table rendering returns the empty string only for a grid
with zero rows; a non-empty grid all of whose rows have zero cells
renders as `table.length + 1` lines of `|  |` (header, separator, and
one body line per extra row) — a non-empty string. -/
theorem claim_C10 (table : List (List String)) :
    (table ≠ [] → extract_table_as_markdown table ≠ "") ∧
    ((∀ row ∈ table, row = []) → table ≠ [] →
      extract_table_as_markdown table
        = String.intercalate ("\n") (List.replicate (table.length + 1) ("|  |"))) := by
  constructor
  · intro hne
    obtain ⟨r0, rest, rfl⟩ := List.exists_cons_of_ne_nil hne
    rw [extract_table_as_markdown]
    simp only [List.map_cons, render_rows]
    exact intercalate_format_row_ne_empty _ _
  · intro hall hne
    have hrep : table = List.replicate table.length [] :=
      List.eq_replicate_of_mem hall
    obtain ⟨k, hk⟩ : ∃ k, table.length = k + 1 := by
      obtain ⟨a, t, rfl⟩ := List.exists_cons_of_ne_nil hne
      exact ⟨t.length, rfl⟩
    calc extract_table_as_markdown table
        = extract_table_as_markdown (List.replicate (k + 1) []) := by rw [← hk, ← hrep]
      _ = String.intercalate ("\n") (List.replicate (k + 2) ("|  |")) :=
          extract_replicate_nil k
      _ = String.intercalate ("\n") (List.replicate (table.length + 1) ("|  |")) := by
          rw [hk]

/-- Claim C10 (witness): the two-row grid with no cells renders as
three `|  |` lines, not the empty string. -/
theorem claim_C10_witness :
    extract_table_as_markdown [[], []] = "|  |\n|  |\n|  |" ∧
    extract_table_as_markdown ([[], []] : List (List String)) ≠ "" := by
  have h := claim_C10 [[], []]
  constructor
  · have h2 := h.2 (by decide) (by decide)
    rw [h2]
    decide
  · exact h.1 (by decide)
